import Mathlib

/-!
# Verification of the group-optimizer profile enrichment pipeline

Shallow embedding of the core of `Anyueow/group-optimizer`:

* `src/scraper/linkedin/profile_analyzer.py` — `LinkedInPersonalityAnalyzer`
  (extraversion / conscientiousness scoring, archetype classification,
  `analyze_profile`);
* `src/scraper/url_finder.py` — `URLFinder.fetch_linkedin_url` (retry loop
  with exponential backoff, fixed structural parse of the search page);
* `src/scraper/linkedin/batch_analysis.py` — `LinkedInBatchAnalyzer.run_analysis`.

Python numbers are modelled as exact rationals (`ℚ`), Python strings as Lean
`String` (a list of characters), missing dictionary entries as `Option`.
Python's `str.strip()`-emptiness test is modelled by "all characters are
whitespace", `str.split()` word counting by counting maximal non-whitespace
runs, and fallible code by `Except`/`Option`.
-/

namespace GroupOptimizer

/-- Python truthiness of an optional string: `None` and `""` are falsy. -/
def pyTruthy : Option String → Bool
  | none => false
  | some s => s ≠ ""

/-- Python `not s or s.strip() == ""`: the value is `None`, empty, or
whitespace-only. -/
def pyBlank : Option String → Bool
  | none => true
  | some s => s.data.all Char.isWhitespace

/-- Lower-case a string character by character (`str.lower()` on the ASCII
text the analyzer handles). -/
def lowerStr (s : String) : String := ⟨s.data.map Char.toLower⟩

/-- Membership `needle in hay` on character lists: some suffix of `hay` starts with
`needle`. -/
def listContainsSub (needle : List Char) : List Char → Bool
  | [] => needle.isEmpty
  | c :: t => needle.isPrefixOf (c :: t) || listContainsSub needle t

/-- Substring test `needle in hay` of Python. -/
def containsSub (needle hay : String) : Bool :=
  listContainsSub needle.data hay.data

/-- Word counter for `len(s.split())`: number of maximal non-whitespace runs. -/
def wcAux : List Char → Bool → Nat
  | [], _ => 0
  | c :: t, inWord =>
    if c.isWhitespace then wcAux t false
    else (if inWord then 0 else 1) + wcAux t true

/-- Python `len(s.split())`. -/
def wordCount (s : String) : Nat := wcAux s.data false

/-- One entry of the `Experiences` list handed to the analyzer: a Python dict
whose four fields may be absent (`None`). -/
structure Experience where
  role : Option String
  company : Option String
  date_range : Option String
  description : Option String
deriving DecidableEq

/-- The profile dict consumed by `LinkedInPersonalityAnalyzer`
(keys `Name`, `Followers`, `Verified`, `About`, `Experiences`). -/
structure Profile where
  name : Option String
  followers : ℚ
  verified : Bool
  about : Option String
  experiences : List Experience
deriving DecidableEq

/-! ## `calculate_extraversion_score` (profile_analyzer.py lines 62–116) -/

/-- The follower contribution `min(40, (followers / 1000) * 20)`. -/
def followerScore (followers : ℚ) : ℚ := min 40 (followers / 1000 * 20)

def leadership_keywords : List String :=
  ["president", "director", "lead", "founder", "chair"]

/-- Experiences that pass `if not role or role.strip() == "": continue`. -/
def validRoleExps (p : Profile) : List Experience :=
  p.experiences.filter (fun e => !pyBlank e.role)

/-- Test `any(keyword in role.lower() for keyword in leadership_keywords)`. -/
def roleHasLeadership (e : Experience) : Bool :=
  leadership_keywords.any (fun k => containsSub k (lowerStr (e.role.getD "")))

/-- The leadership contribution: 10 per matching valid role, capped at 30 and
added only when at least one experience has a non-blank role. -/
def leadershipContribution (p : Profile) : ℚ :=
  let valid := validRoleExps p
  if valid.length > 0
  then min 30 (10 * ((valid.filter roleHasLeadership).length : ℚ))
  else 0

def community_terms : List String :=
  ["community", "team", "group", "club", "organization"]

/-- Experiences that pass `if not desc or desc.strip() == "": continue`. -/
def validDescExps (p : Profile) : List Experience :=
  p.experiences.filter (fun e => !pyBlank e.description)

/-- Test `any(term in desc.lower() for term in ...)`. -/
def descHasCommunity (e : Experience) : Bool :=
  community_terms.any (fun k => containsSub k (lowerStr (e.description.getD "")))

/-- The community contribution: 10 per matching valid description, capped at 30
and added only when at least one experience has a non-blank description. -/
def communityContribution (p : Profile) : ℚ :=
  let valid := validDescExps p
  if valid.length > 0
  then min 30 (10 * ((valid.filter descHasCommunity).length : ℚ))
  else 0

/-- Translation of `calculate_extraversion_score`: follower + leadership + community
contributions, the total clamped above by 100. -/
def calculate_extraversion_score (p : Profile) : ℚ :=
  min 100 (followerScore p.followers + leadershipContribution p + communityContribution p)

/-! ## `calculate_conscientiousness_score` (profile_analyzer.py lines 118–182) -/

/-- Verification contribution: 20 if `profile.get('Verified', False)` else 0. -/
def verificationContribution (p : Profile) : ℚ :=
  if p.verified then 20 else 0

/-- Per-experience completeness points: 3 for a non-blank role, 3 for a
non-blank date range, 4 for a non-blank description. -/
def expPoints (e : Experience) : ℚ :=
  (if pyBlank e.role then 0 else 3)
    + (if pyBlank e.date_range then 0 else 3)
    + (if pyBlank e.description then 0 else 4)

/-- Guard `if not any([role, company, date_range, description])` — the entry is
skipped entirely. -/
def expAllFalsy (e : Experience) : Bool :=
  !pyTruthy e.role && !pyTruthy e.company && !pyTruthy e.date_range
    && !pyTruthy e.description

/-- The experiences counted as valid by the completeness loop: not skipped and
scoring more than 0 points. -/
def completenessValidExps (p : Profile) : List Experience :=
  p.experiences.filter (fun e => !expAllFalsy e && decide (expPoints e > 0))

/-- Sum of `min(10, current_exp_score)` over the valid experiences. -/
def completenessRawSum (p : Profile) : ℚ :=
  (completenessValidExps p).foldr (fun e acc => min 10 (expPoints e) + acc) 0

/-- Completeness contribution `min(40, (exp_score / valid_experiences) * 4)`,
guarded by `valid_experiences > 0`. -/
def completenessContribution (p : Profile) : ℚ :=
  let valid := (completenessValidExps p).length
  if valid > 0
  then min 40 (completenessRawSum p / (valid : ℚ) * 4)
  else 0

/-- Duration/consistency contribution: 20 if at least 4 valid experiences,
10 if at least 2, else 0. -/
def durationContribution (p : Profile) : ℚ :=
  let valid := (completenessValidExps p).length
  if valid ≥ 4 then 20 else if valid ≥ 2 then 10 else 0

/-- Detail contribution: 5 points per experience whose description is non-blank and has at least
20 words. -/
def detailContribution (p : Profile) : ℚ :=
  5 * ((p.experiences.filter
    (fun e => !pyBlank e.description
      && decide (wordCount (e.description.getD "") ≥ 20))).length : ℚ)

/-- Translation of `calculate_conscientiousness_score`: verification + completeness +
duration + detail contributions, the total clamped above by 100. -/
def calculate_conscientiousness_score (p : Profile) : ℚ :=
  min 100 (verificationContribution p + completenessContribution p
    + durationContribution p + detailContribution p)

/-! ## `analyze_sentiment` (profile_analyzer.py lines 47–60)

The DistilBERT pipeline is an external capability; it is modelled as an
injected function `model : String → List (String × ℚ)` from a text to a
label→probability association list. `analyze_sentiment` only adds the
empty-text guard in front of it. -/

/-- The injected sentiment capability. -/
def SentimentModel := String → List (String × ℚ)

/-- Translation of `analyze_sentiment`: empty or whitespace-only text short-circuits to
`{'NEUTRAL': 1.0}`; otherwise the model is consulted. -/
def analyze_sentiment (model : SentimentModel) (text : String) : List (String × ℚ) :=
  if pyBlank (some text) then [("NEUTRAL", 1)] else model text

/-- Lookup `d.get(k, 0)` on a label→probability dict. -/
def dictGetQ (d : List (String × ℚ)) (k : String) : ℚ :=
  (d.lookup k).getD 0

/-! ## `determine_archetype` (profile_analyzer.py lines 184–253) -/

/-- The `archetype_keywords` dict, in insertion order (lines 35–40). -/
def archetype_keywords : List (String × List String) :=
  [("Tech_Bro", ["software", "engineering", "development", "tech", "coding",
      "programming", "web", "app"]),
   ("ML_AI_Cracked", ["machine learning", "artificial intelligence", "ML", "AI",
      "deep learning", "neural", "data science"]),
   ("Finance_Bro", ["finance", "investment", "banking", "trading", "portfolio",
      "analyst", "hedge fund"]),
   ("Business_Dud", ["marketing", "communications", "sales",
      "business development", "strategy", "consulting"])]

/-- The text an experience contributes to the keyword scan: `None` when the
experience is skipped (`not role and not description`, or no strippable text
part); otherwise the lower-cased join of the available parts. -/
def expText (e : Experience) : Option String :=
  let role := e.role.getD ""
  let desc := e.description.getD ""
  if role = "" ∧ desc = "" then none
  else
    let parts := (if ¬ pyBlank e.role then [role] else [])
      ++ (if ¬ pyBlank e.description then [desc] else [])
    if parts = [] then none
    else some (lowerStr (String.intercalate " " parts))

/-- Count `matches = sum(1 for keyword in keywords if keyword.lower() in text)`. -/
def keywordMatches (keywords : List String) (text : String) : Nat :=
  (keywords.filter (fun k => containsSub (lowerStr k) text)).length

/-- Boost `0.5 if sentiment.get('POSITIVE', 0) > 0.6 else 0`. -/
def sentimentBoost (model : SentimentModel) (text : String) : ℚ :=
  if dictGetQ (analyze_sentiment model text) "POSITIVE" > 6/10 then 1/2 else 0

/-- Raw (pre-normalization) score one archetype accumulates over the
contributing texts: `matches * (1 + sentiment_boost)` whenever `matches` is
non-zero. -/
def archetypeRawScore (model : SentimentModel) (texts : List String)
    (keywords : List String) : ℚ :=
  texts.foldl (fun acc t =>
    let m := keywordMatches keywords t
    if m > 0 then acc + (m : ℚ) * (1 + sentimentBoost model t) else acc) 0

/-- Python `max(values)` of the (non-empty) score dict. -/
def listMaxQ : List ℚ → ℚ
  | [] => 0
  | x :: t => t.foldl max x

/-- Python `max(items, key=lambda x: x[1])`: it keeps the FIRST maximal
item, replacing the accumulator only on a strictly greater value. -/
def pyMaxPair : List (String × ℚ) → String × ℚ
  | [] => ("", 0)
  | x :: t => t.foldl (fun acc y => if y.2 > acc.2 then y else acc) x

/-- Replacement `s.replace('_', ' ')` (the pattern is a single character). -/
def replaceUnderscore (s : String) : String :=
  ⟨s.data.map (fun c => if c = '_' then ' ' else c)⟩

/-- The texts contributed to the keyword scan, in experience order
(`valid_experiences` is their number). -/
def archetypeTexts (p : Profile) : List String :=
  p.experiences.filterMap expText

/-- The normalized `archetype_scores` dict, in insertion order. -/
def archetypeScores (model : SentimentModel) (p : Profile) : List (String × ℚ) :=
  archetype_keywords.map (fun ak =>
    (ak.1, archetypeRawScore model (archetypeTexts p) ak.2
      / ((archetypeTexts p).length : ℚ)))

/-- Translation of `determine_archetype`: the "Dud energy" short-circuit, then the
sentiment-boosted keyword competition normalized by the number of
contributing experiences; `"Business_Dud"` is the fallback both when no
experience contributed text and when every normalized score is zero. -/
def determine_archetype (model : SentimentModel) (p : Profile) : String :=
  if p.experiences.length < 3 ∧ calculate_extraversion_score p < 21
      ∧ calculate_conscientiousness_score p < 31 then
    "Dud energy"
  else if (archetypeTexts p).length > 0 then
    if listMaxQ ((archetypeScores model p).map Prod.snd) = 0 then "Business_Dud"
    else replaceUnderscore (pyMaxPair (archetypeScores model p)).1
  else "Business_Dud"

/-! ## `analyze_profile` (profile_analyzer.py lines 255–283) -/

/-- A value of the analysis result dict. -/
inductive JVal where
  | str (v : String)
  | num (v : ℚ)
  | dict (v : List (String × ℚ))
deriving DecidableEq

/-- Integer part of Python `round(x, 2)` on the exact rational: banker's
rounding (halves to even). -/
def roundHalfEven (q : ℚ) : ℤ :=
  let f := ⌊q⌋
  let r := q - f
  if r < 1/2 then f
  else if r > 1/2 then f + 1
  else if f % 2 = 0 then f else f + 1

/-- Python `round(x, 2)`. -/
def pyRound2 (q : ℚ) : ℚ := (roundHalfEven (q * 100) : ℚ) / 100

/-- The sentiment run on the `About` section when it is present and non-blank
(lines 264–267); empty otherwise. -/
def aboutSentiment (model : SentimentModel) (p : Profile) : List (String × ℚ) :=
  match p.about with
  | none => []
  | some a => if a ≠ "" ∧ ¬ pyBlank (some a) then analyze_sentiment model a else []

/-- Translation of `analyze_profile`: the result dict, as a key-value list in
construction order. `about_sentiment` is present only when the `About`
sentiment dict is non-empty. -/
def analyze_profile (model : SentimentModel) (p : Profile) : List (String × JVal) :=
  let extraversion := calculate_extraversion_score p
  let conscientiousness := calculate_conscientiousness_score p
  let archetype := determine_archetype model p
  let about_sentiment := aboutSentiment model p
  [("name", .str (p.name.getD "Unknown")),
   ("extraversion_score", .num (pyRound2 extraversion)),
   ("conscientiousness_score", .num (pyRound2 conscientiousness)),
   ("archetype", .str archetype),
   ("group_project_fit_score", .num (pyRound2 (extraversion * (4/10) + conscientiousness * (6/10))))]
  ++ (if about_sentiment ≠ [] then [("about_sentiment", .dict about_sentiment)] else [])

/-! ## `URLFinder.fetch_linkedin_url` (url_finder.py lines 52–161)

One loop iteration either raises a `requests` exception (network error,
timeout, or the explicit raise on a non-200 status) — caught and retried with
exponential backoff — or raises an unexpected exception (caught, `return
None`), or yields a parsed search page, which the fixed structural walk turns
into the function's return value. The outcome of each attempt is injected as
`op : Nat → FetchOutcome`. -/

/-- The Bing result page as seen by the structural walk: presence of
`<ol id="b_results">`, of the first `<li class="b_algo">`, of the first
`<div class="b_tpcn">`, and the `href` of the first `<a>` when one exists. -/
structure BingPage where
  olResults : Bool
  liAlgo : Bool
  divTpcn : Bool
  anchorHref : Option String
deriving DecidableEq

/-- What one attempt of the `while` loop body does. -/
inductive FetchOutcome where
  | reqException
  | otherException
  | page (pg : BingPage)
deriving DecidableEq

/-- The structural walk of lines 104–142: any missing element returns `None`
from the function; a found `href` is returned only if it contains
`'linkedin.com/in'`, otherwise `None` is returned. -/
def processPage (pg : BingPage) : Option String :=
  if ¬ pg.olResults then none
  else if ¬ pg.liAlgo then none
  else if ¬ pg.divTpcn then none
  else
    match pg.anchorHref with
    | none => none
    | some href => if containsSub "linkedin.com/in" href then some href else none

/-- Observable result of `fetch_linkedin_url`: the returned value, the number
of loop iterations that ran, and the successive backoff sleeps. -/
structure FetchRun where
  result : Option String
  attempts : Nat
  waits : List ℚ
deriving DecidableEq

/-- The retry loop, recursing on `max_retries - retries`. A `requests`
exception sleeps `delay`, doubles it and retries; any parsed page (and any
unexpected exception) terminates the function at once. -/
def fetchAux (op : Nat → FetchOutcome) : Nat → Nat → ℚ → List ℚ → FetchRun
  | _, 0, _, waits => ⟨none, waits.length, waits⟩
  | idx, remaining + 1, delay, waits =>
    match op idx with
    | .page pg => ⟨processPage pg, waits.length + 1, waits⟩
    | .otherException => ⟨none, waits.length + 1, waits⟩
    | .reqException => fetchAux op (idx + 1) remaining (delay * 2) (waits ++ [delay])

/-- Translation of `fetch_linkedin_url`, parameterized by the per-attempt outcomes and the
instance attributes `max_retries` and `base_delay` (defaults 3 and 1). -/
def fetch_linkedin_url (op : Nat → FetchOutcome) (max_retries : Nat)
    (base_delay : ℚ) : FetchRun :=
  fetchAux op 0 max_retries base_delay []

/-! ## `LinkedInBatchAnalyzer.run_analysis` (batch_analysis.py lines 60–100) -/

/-- The scraper's dataclass `LinkedInProfile` (models.py). -/
structure LinkedInProfile where
  name : String
  followers : ℚ
  title : String
  verified : Bool
  experiences : List Experience
  skills : List String
deriving DecidableEq

/-- The roster record `Person` (person.py) mutated by the batch. -/
structure Person where
  name : String
  linkedin : Option String
  personality_score : Option JVal
  details : Option (List (String × JVal))
deriving DecidableEq

/-- Translation of `_profile_to_dict` (batch_analysis.py lines 31–50): every experience field
defaults to `""`, `Followers` to `0` — the dict handed to the analyzer never
has absent experience fields. -/
def profile_to_dict (lp : LinkedInProfile) : Profile :=
  { name := some lp.name,
    followers := lp.followers,
    verified := lp.verified,
    about := none,
    experiences := lp.experiences.map (fun e =>
      { role := some (e.role.getD ""),
        company := some (e.company.getD ""),
        date_range := some (e.date_range.getD ""),
        description := some (e.description.getD "") }) }

/-- The per-person body of the `for` loop in `run_analysis`. When
`scrape_profile` yields no profile record the code only prints a message and
still calls `_profile_to_dict(None)`, which raises `AttributeError`
(`None` has no attribute `name`); the exception propagates out of
`run_analysis`. -/
def processPerson (scrape : Option String → Option LinkedInProfile)
    (model : SentimentModel) (p : Person) : Except String Person :=
  match scrape p.linkedin with
  | none =>
    .error "AttributeError: NoneType object has no attribute name"
  | some lp =>
    let analysis := analyze_profile model (profile_to_dict lp)
    .ok { p with
      details := some analysis,
      personality_score := analysis.lookup "personality_score" }

/-- The `for` loop: persons processed in order, an uncaught exception aborts
the whole batch. -/
def runPersons (scrape : Option String → Option LinkedInProfile)
    (model : SentimentModel) : List Person → Except String (List Person)
  | [] => .ok []
  | p :: rest => do
    let p' ← processPerson scrape model p
    let rest' ← runPersons scrape model rest
    .ok (p' :: rest')

/-- Translation of `run_analysis`: failed login returns the roster unmodified; otherwise each
person is processed in order and any exception propagates. -/
def run_analysis (loginOk : Bool)
    (scrape : Option String → Option LinkedInProfile) (model : SentimentModel)
    (persons : List Person) : Except String (List Person) :=
  if ¬ loginOk then .ok persons
  else runPersons scrape model persons

/-! ## Helper lemmas -/

theorem pyMax_foldl_mem (t : List (String × ℚ)) (acc : String × ℚ) :
    t.foldl (fun a y => if y.2 > a.2 then y else a) acc ∈ acc :: t := by
  induction t generalizing acc with
  | nil => simp
  | cons y t ih =>
    simp only [List.foldl_cons]
    rcases List.mem_cons.1 (ih (if y.2 > acc.2 then y else acc)) with h1 | h1
    · rw [h1]; split
      · exact List.mem_cons_of_mem _ (List.mem_cons_self _ _)
      · exact List.mem_cons_self _ _
    · exact List.mem_cons_of_mem _ (List.mem_cons_of_mem _ h1)

theorem pyMaxPair_fst_mem :
    ∀ l : List (String × ℚ), l ≠ [] → (pyMaxPair l).1 ∈ l.map Prod.fst
  | [], h => absurd rfl h
  | _ :: t, _ => List.mem_map_of_mem Prod.fst (pyMax_foldl_mem t _)

theorem archetypeScores_fst (model : SentimentModel) (p : Profile) :
    (archetypeScores model p).map Prod.fst
      = ["Tech_Bro", "ML_AI_Cracked", "Finance_Bro", "Business_Dud"] := by
  simp [archetypeScores, archetype_keywords]

theorem keyword_winner_cases (model : SentimentModel) (p : Profile) :
    (pyMaxPair (archetypeScores model p)).1 = "Tech_Bro"
      ∨ (pyMaxPair (archetypeScores model p)).1 = "ML_AI_Cracked"
      ∨ (pyMaxPair (archetypeScores model p)).1 = "Finance_Bro"
      ∨ (pyMaxPair (archetypeScores model p)).1 = "Business_Dud" := by
  have hne : archetypeScores model p ≠ [] := by
    simp [archetypeScores, archetype_keywords]
  have hmem := pyMaxPair_fst_mem (archetypeScores model p) hne
  rw [archetypeScores_fst] at hmem
  simpa using hmem

/-! ## Claims about the archetype classifier -/

/-- C1: `determine_archetype` returns `"Dud energy"` if and only if the
profile has fewer than 3 experiences AND extraversion-proxy < 21 AND
conscientiousness-proxy < 31. The short-circuit is visible in the statement:
the condition and hence the label do not depend on the sentiment model, so no
keyword scan is consulted. -/
theorem dud_energy_iff (model : SentimentModel) (p : Profile) :
    determine_archetype model p = "Dud energy" ↔
      p.experiences.length < 3 ∧ calculate_extraversion_score p < 21
        ∧ calculate_conscientiousness_score p < 31 := by
  unfold determine_archetype
  by_cases hcond : p.experiences.length < 3 ∧ calculate_extraversion_score p < 21
      ∧ calculate_conscientiousness_score p < 31
  · rw [if_pos hcond]; exact iff_of_true rfl hcond
  · rw [if_neg hcond]
    refine iff_of_false ?_ hcond
    split
    · split
      · decide
      · intro hEq
        rcases keyword_winner_cases model p with h | h | h | h <;>
          rw [h] at hEq <;> exact absurd hEq (by decide)
    · decide

/-- Profile used to exercise the all-scores-zero keyword fallback: three
complete experiences whose texts match no archetype keyword. -/
def zeroKeywordProfile : Profile :=
  { name := none, followers := 0, verified := false, about := none,
    experiences := List.replicate 3
      { role := some "Wizard", company := none, date_range := some "2020",
        description := some "xyz" } }

/-- Profile on which the `Business_Dud` keyword set wins the competition. -/
def businessWinProfile : Profile :=
  { name := none, followers := 0, verified := false, about := none,
    experiences := List.replicate 3
      { role := some "Marketing Manager", company := none,
        date_range := some "2020",
        description := some "sales strategy consulting" } }

/-- C9: `determine_archetype` always returns one of six strings; the fallback
when nothing matches is `"Business_Dud"` (underscore), a different string from
the keyword-competition winner `"Business Dud"` (space): winners have
underscores replaced by spaces, the fallback does not. -/
theorem archetype_closed_label_set :
    (∀ (model : SentimentModel) (p : Profile),
      determine_archetype model p ∈
        (["Dud energy", "Tech Bro", "ML AI Cracked", "Finance Bro",
          "Business Dud", "Business_Dud"] : List String))
    ∧ ("Business_Dud" : String) ≠ "Business Dud"
    ∧ determine_archetype (fun _ => []) zeroKeywordProfile = "Business_Dud"
    ∧ determine_archetype (fun _ => []) businessWinProfile = "Business Dud" := by
  refine ⟨?_, by decide, by with_unfolding_all decide, by with_unfolding_all decide⟩
  intro model p
  unfold determine_archetype
  split
  · decide
  · split
    · split
      · decide
      · rcases keyword_winner_cases model p with h | h | h | h <;>
          rw [h] <;> decide
    · decide

/-! ## Claims about the URL lookup retry loop -/

theorem fetchAux_allfail (op : Nat → FetchOutcome)
    (h : ∀ n, op n = .reqException) (r : Nat) :
    ∀ (idx : Nat) (delay : ℚ) (waits : List ℚ),
      fetchAux op idx r delay waits
        = ⟨none, waits.length + r,
            waits ++ (List.range r).map (fun i => delay * 2 ^ i)⟩ := by
  induction r with
  | zero => intro idx delay waits; simp [fetchAux]
  | succ r ih =>
    intro idx delay waits
    rw [fetchAux, h idx, ih]
    have hmap : (List.range (r + 1)).map (fun i => delay * 2 ^ i)
        = delay * 2 ^ 0 :: (List.range r).map (fun i => delay * 2 * 2 ^ i) := by
      rw [List.range_succ_eq_map, List.map_cons, List.map_map]
      have : (fun i => delay * 2 ^ i) ∘ Nat.succ = fun i => delay * 2 * 2 ^ i := by
        funext i
        simp [pow_succ]
        ring
      rw [this]
    simp [hmap]
    omega

/-- C2: on an operation that raises a transient (`requests`) failure at every
attempt, `fetch_linkedin_url` runs exactly `max_retries` attempts, sleeping
`base_delay * 2 ^ i` after the i-th failure (doubling each time), and then
returns `None` rather than raising. -/
theorem retry_exhaustion (op : Nat → FetchOutcome) (max_retries : Nat)
    (base_delay : ℚ) (h : ∀ n, op n = .reqException) :
    fetch_linkedin_url op max_retries base_delay
      = ⟨none, max_retries,
          (List.range max_retries).map (fun i => base_delay * 2 ^ i)⟩ := by
  rw [fetch_linkedin_url, fetchAux_allfail op h]
  simp

/-- Witness for C2 at the repository defaults `max_retries = 3`,
`base_delay = 1`: three attempts, waits 1, 2 and 4 seconds, final result
`None`. -/
theorem retry_exhaustion_witness :
    fetch_linkedin_url (fun _ => .reqException) 3 1 = ⟨none, 3, [1, 2, 4]⟩ := by
  rw [retry_exhaustion (fun _ => .reqException) 3 1 (fun _ => rfl)]
  with_unfolding_all decide

/-- Attempt trace refuting C3: the first attempt yields a parse without the
results container, every later attempt would yield a perfect result page. -/
def opMissingMarkup : Nat → FetchOutcome := fun n =>
  if n = 0 then .page ⟨false, false, false, none⟩
  else .page ⟨true, true, true, some "https://www.linkedin.com/in/x"⟩

/-- Counterexample to C3: with the markup missing on the first attempt,
`fetch_linkedin_url` performs exactly one attempt and no backoff wait and
returns `None` — it does NOT retry, even though the second attempt would have
produced a valid profile link. -/
theorem markup_missing_counterexample :
    fetch_linkedin_url opMissingMarkup 3 1 = ⟨none, 1, []⟩
      ∧ processPage ⟨true, true, true, some "https://www.linkedin.com/in/x"⟩
          = some "https://www.linkedin.com/in/x"
      ∧ (1 : Nat) ≠ 3 := by
  refine ⟨by decide, by decide, by decide⟩

/-- C3 amended: when the fetched page lacks the expected markup (missing
results container, first result item, or link) or the extracted link does not
contain `'linkedin.com/in'`, that `None` is returned immediately as the final
result of the whole lookup — one attempt, no backoff, no retry; only request
exceptions are retried. -/
theorem markup_missing_terminal (op : Nat → FetchOutcome) (max_retries : Nat)
    (base_delay : ℚ) (pg : BingPage) (hmr : 0 < max_retries)
    (h0 : op 0 = .page pg)
    (hbad : pg.olResults = false ∨ pg.liAlgo = false ∨ pg.divTpcn = false
      ∨ pg.anchorHref = none
      ∨ ∃ href, pg.anchorHref = some href
          ∧ containsSub "linkedin.com/in" href = false) :
    fetch_linkedin_url op max_retries base_delay = ⟨none, 1, []⟩ := by
  obtain ⟨r, rfl⟩ : ∃ r, max_retries = r + 1 :=
    ⟨max_retries - 1, by omega⟩
  have hnone : processPage pg = none := by
    rcases hbad with h | h | h | h | ⟨href, h1, h2⟩ <;>
      simp [processPage, *]
  rw [fetch_linkedin_url, fetchAux, h0]
  simp [hnone]

/-- Witness for C3's amended claim: a page with no results container at the
first attempt ends the lookup at once. -/
theorem markup_missing_terminal_witness :
    fetch_linkedin_url (fun _ => .page ⟨false, false, false, none⟩) 3 1
      = ⟨none, 1, []⟩ :=
  markup_missing_terminal (fun _ => .page ⟨false, false, false, none⟩) 3 1
    ⟨false, false, false, none⟩ (by decide) rfl (Or.inl rfl)

/-! ## Claims about the feature scorer -/

/-- C4: a profile none of whose experiences has a non-blank role, date range
or description (in particular one with an empty experience list) gets 0
leadership, community and completeness contributions — each normalize-by-count
step is guarded by `valid > 0`, so no division by zero occurs — hence the
extraversion-proxy is the follower contribution alone and the
conscientiousness-proxy the verification contribution alone. -/
theorem zero_valid_experiences (p : Profile)
    (h : ∀ e ∈ p.experiences,
      pyBlank e.role ∧ pyBlank e.date_range ∧ pyBlank e.description) :
    leadershipContribution p = 0 ∧ communityContribution p = 0
      ∧ completenessContribution p = 0
      ∧ calculate_extraversion_score p = followerScore p.followers
      ∧ calculate_conscientiousness_score p = verificationContribution p := by
  have hrole : validRoleExps p = [] :=
    List.filter_eq_nil_iff.2 (fun e he => by simp [(h e he).1])
  have hdesc : validDescExps p = [] :=
    List.filter_eq_nil_iff.2 (fun e he => by simp [(h e he).2.2])
  have hcomp : completenessValidExps p = [] :=
    List.filter_eq_nil_iff.2 (fun e he => by
      simp [expPoints, (h e he).1, (h e he).2.1, (h e he).2.2])
  have hdet : p.experiences.filter
      (fun e => !pyBlank e.description
        && decide (wordCount (e.description.getD "") ≥ 20)) = [] :=
    List.filter_eq_nil_iff.2 (fun e he => by simp [(h e he).2.2])
  have h1 : leadershipContribution p = 0 := by
    simp [leadershipContribution, hrole]
  have h2 : communityContribution p = 0 := by
    simp [communityContribution, hdesc]
  have h3 : completenessContribution p = 0 := by
    simp [completenessContribution, hcomp]
  have h4 : durationContribution p = 0 := by
    simp [durationContribution, hcomp]
  have h5 : detailContribution p = 0 := by
    simp [detailContribution, hdet]
  refine ⟨h1, h2, h3, ?_, ?_⟩
  · simp only [calculate_extraversion_score, h1, h2, add_zero]
    rw [min_eq_right]
    exact le_trans (min_le_left _ _) (by norm_num)
  · simp only [calculate_conscientiousness_score, h3, h4, h5, add_zero]
    rw [min_eq_right]
    unfold verificationContribution
    split <;> norm_num

/-- Profile exercising C4: one experience whose only non-blank fields are the
company and a whitespace date range. -/
def blankExperienceProfile : Profile :=
  { name := none, followers := 500, verified := true, about := none,
    experiences :=
      [{ role := none, company := some "ACME",
         date_range := some "  ", description := none }] }

/-- Witness for C4 on `blankExperienceProfile`. -/
theorem zero_valid_experiences_witness :
    leadershipContribution blankExperienceProfile = 0
      ∧ communityContribution blankExperienceProfile = 0
      ∧ completenessContribution blankExperienceProfile = 0
      ∧ calculate_extraversion_score blankExperienceProfile = followerScore 500
      ∧ calculate_conscientiousness_score blankExperienceProfile
          = verificationContribution blankExperienceProfile :=
  zero_valid_experiences blankExperienceProfile (by decide)

/-- The profile of the spec's end-to-end scenario: verified, 2000 followers,
one experience with role "Director" and a community-themed description. -/
def directorProfile : Profile :=
  { name := some "B", followers := 2000, verified := true, about := none,
    experiences :=
      [{ role := some "Director", company := none, date_range := none,
         description := some "led the team community outreach" }] }

theorem lookup_fit_score (model : SentimentModel) (p : Profile) :
    (analyze_profile model p).lookup "group_project_fit_score"
      = some (.num (pyRound2 (calculate_extraversion_score p * (4/10)
          + calculate_conscientiousness_score p * (6/10)))) := rfl

/-- C5: the reported fit score is `0.4 * extraversion + 0.6 *
conscientiousness` rounded to 2 decimal places, for every profile; on the
spec's example profile the extraversion-proxy is 40 + 10 + 10 = 60, the
conscientiousness-proxy is 20 + 28 = 48, and the fit score is exactly 52.8. -/
theorem fit_score_formula :
    (∀ (model : SentimentModel) (p : Profile),
      (analyze_profile model p).lookup "group_project_fit_score"
        = some (.num (pyRound2 ((4/10) * calculate_extraversion_score p
            + (6/10) * calculate_conscientiousness_score p))))
    ∧ calculate_extraversion_score directorProfile = 60
    ∧ calculate_conscientiousness_score directorProfile = 48
    ∧ pyRound2 ((4/10) * 60 + (6/10) * 48) = 264/5
    ∧ ∀ model : SentimentModel,
        (analyze_profile model directorProfile).lookup "group_project_fit_score"
          = some (.num (264/5)) := by
  refine ⟨?_, by with_unfolding_all decide, by with_unfolding_all decide,
    by with_unfolding_all decide, ?_⟩
  · intro model p
    rw [lookup_fit_score model p]
    congr 3
    ring
  · intro model
    rw [lookup_fit_score model directorProfile]
    with_unfolding_all decide

/-- C6: the follower contribution equals `min(40, f/50)`, is monotonically
non-decreasing in the follower count, and never exceeds 40. -/
theorem follower_contribution_spec (f : ℚ) (_hf : 0 ≤ f) :
    followerScore f = min 40 (f / 50)
      ∧ (∀ g : ℚ, f ≤ g → followerScore f ≤ followerScore g)
      ∧ followerScore f ≤ 40 := by
  refine ⟨?_, ?_, min_le_left _ _⟩
  · unfold followerScore
    congr 1
    ring
  · intro g hg
    unfold followerScore
    exact min_le_min le_rfl (by linarith)

/-- Witness for C6 at `f = 2500` (and monotonicity toward `g = 3000`). -/
theorem follower_contribution_spec_witness :
    followerScore 2500 = min 40 (2500 / 50)
      ∧ followerScore 2500 ≤ followerScore 3000
      ∧ followerScore 2500 ≤ 40 :=
  ⟨(follower_contribution_spec 2500 (by norm_num)).1,
   (follower_contribution_spec 2500 (by norm_num)).2.1 3000 (by norm_num),
   (follower_contribution_spec 2500 (by norm_num)).2.2⟩

/-! ## Claims about defensive clamping -/

theorem expPoints_nonneg (e : Experience) : 0 ≤ expPoints e := by
  unfold expPoints
  have h1 : (0:ℚ) ≤ if pyBlank e.role then 0 else 3 := by split <;> norm_num
  have h2 : (0:ℚ) ≤ if pyBlank e.date_range then 0 else 3 := by split <;> norm_num
  have h3 : (0:ℚ) ≤ if pyBlank e.description then 0 else 4 := by split <;> norm_num
  linarith

theorem completenessRawSum_nonneg (p : Profile) : 0 ≤ completenessRawSum p := by
  unfold completenessRawSum
  induction completenessValidExps p with
  | nil => simp
  | cons e t ih =>
    simp only [List.foldr_cons]
    have he : 0 ≤ min 10 (expPoints e) :=
      le_min (by norm_num) (expPoints_nonneg e)
    linarith

theorem leadershipContribution_nonneg (p : Profile) :
    0 ≤ leadershipContribution p := by
  unfold leadershipContribution
  dsimp only
  split
  · exact le_min (by norm_num) (by positivity)
  · exact le_refl 0

theorem communityContribution_nonneg (p : Profile) :
    0 ≤ communityContribution p := by
  unfold communityContribution
  dsimp only
  split
  · exact le_min (by norm_num) (by positivity)
  · exact le_refl 0

theorem completenessContribution_nonneg (p : Profile) :
    0 ≤ completenessContribution p := by
  unfold completenessContribution
  dsimp only
  split
  · refine le_min (by norm_num) (mul_nonneg (div_nonneg ?_ ?_) (by norm_num))
    · exact completenessRawSum_nonneg p
    · positivity
  · exact le_refl 0

theorem durationContribution_nonneg (p : Profile) :
    0 ≤ durationContribution p := by
  unfold durationContribution
  dsimp only
  split
  · norm_num
  · split <;> norm_num

theorem detailContribution_nonneg (p : Profile) :
    0 ≤ detailContribution p := by
  unfold detailContribution
  positivity

theorem verificationContribution_bounds (p : Profile) :
    0 ≤ verificationContribution p ∧ verificationContribution p ≤ 20 := by
  unfold verificationContribution
  split <;> norm_num

theorem conscientiousness_in_range (p : Profile) :
    0 ≤ calculate_conscientiousness_score p
      ∧ calculate_conscientiousness_score p ≤ 100 := by
  unfold calculate_conscientiousness_score
  refine ⟨le_min (by norm_num) ?_, min_le_left _ _⟩
  have h1 := (verificationContribution_bounds p).1
  have h2 := completenessContribution_nonneg p
  have h3 := durationContribution_nonneg p
  have h4 := detailContribution_nonneg p
  linarith

theorem roundHalfEven_nonneg (q : ℚ) (h : 0 ≤ q) : 0 ≤ roundHalfEven q := by
  unfold roundHalfEven
  dsimp only
  have hf : (0:ℤ) ≤ ⌊q⌋ := Int.le_floor.2 (by exact_mod_cast h)
  split
  · exact hf
  · split
    · omega
    · split <;> omega

theorem roundHalfEven_le (q : ℚ) (N : ℤ) (h : q ≤ N) : roundHalfEven q ≤ N := by
  unfold roundHalfEven
  have hfl : ⌊q⌋ ≤ N := by
    have := Int.floor_le_floor h
    rwa [Int.floor_intCast] at this
  dsimp only
  split
  · exact hfl
  · have hq : (⌊q⌋:ℚ) + 1/2 ≤ q := by
      rename_i h1
      push_neg at h1
      linarith
    have hlt : ⌊q⌋ < N := by
      have : (⌊q⌋:ℚ) < (N:ℚ) := by linarith
      exact_mod_cast this
    split
    · omega
    · split <;> omega

theorem pyRound2_bounds (q : ℚ) (h0 : 0 ≤ q) (h100 : q ≤ 100) :
    0 ≤ pyRound2 q ∧ pyRound2 q ≤ 100 := by
  unfold pyRound2
  constructor
  · refine div_nonneg ?_ (by norm_num)
    exact_mod_cast roundHalfEven_nonneg (q * 100) (by linarith)
  · rw [div_le_iff₀ (by norm_num)]
    have h := roundHalfEven_le (q * 100) 10000 (by push_cast; linarith)
    calc ((roundHalfEven (q * 100)):ℚ) ≤ ((10000:ℤ):ℚ) := by exact_mod_cast h
    _ = 100 * 100 := by norm_num

/-- Malformed profile record with a negative follower count. -/
def negativeFollowerProfile : Profile :=
  { name := none, followers := -10000, verified := false, about := none,
    experiences := [] }

/-- Counterexample to C8: on a record with follower count `-10000` the
extraversion-proxy is `-200` — far below 0 — and the reported fit score is
`-80`: nothing clamps negative follower contributions from below. -/
theorem negative_followers_counterexample :
    calculate_extraversion_score negativeFollowerProfile = -200
      ∧ ¬ 0 ≤ calculate_extraversion_score negativeFollowerProfile
      ∧ (analyze_profile (fun _ => []) negativeFollowerProfile).lookup
          "group_project_fit_score" = some (.num (-80)) := by
  refine ⟨?_, ?_, ?_⟩ <;> with_unfolding_all decide

/-- C8 amended: the scorer is total (never raises) and only clamps from
above. The conscientiousness-proxy always lies in [0, 100] and the
extraversion-proxy never exceeds 100; when the follower count is
non-negative — the only malformation the claim names — the extraversion-proxy
and the reported fit score also lie in [0, 100]. A negative follower count
instead propagates into a negative score (see the counterexample). -/
theorem defensive_bounds_amended (model : SentimentModel) (p : Profile) :
    (0 ≤ calculate_conscientiousness_score p
      ∧ calculate_conscientiousness_score p ≤ 100)
    ∧ calculate_extraversion_score p ≤ 100
    ∧ (0 ≤ p.followers →
        0 ≤ calculate_extraversion_score p
        ∧ ∃ fit : ℚ,
            (analyze_profile model p).lookup "group_project_fit_score"
              = some (.num fit) ∧ 0 ≤ fit ∧ fit ≤ 100) := by
  refine ⟨conscientiousness_in_range p, min_le_left _ _, ?_⟩
  intro hf
  have hfs : 0 ≤ followerScore p.followers :=
    le_min (by norm_num) (by positivity)
  have hext0 : 0 ≤ calculate_extraversion_score p := by
    unfold calculate_extraversion_score
    refine le_min (by norm_num) ?_
    have h1 := leadershipContribution_nonneg p
    have h2 := communityContribution_nonneg p
    linarith
  refine ⟨hext0, pyRound2 (calculate_extraversion_score p * (4/10)
      + calculate_conscientiousness_score p * (6/10)), lookup_fit_score model p, ?_⟩
  have hext100 : calculate_extraversion_score p ≤ 100 := min_le_left _ _
  have hc := conscientiousness_in_range p
  refine pyRound2_bounds _ ?_ ?_ <;> nlinarith [hc.1, hc.2, hext0, hext100]

/-- Witness for C8's amended claim on the example profile (non-negative
follower count). -/
theorem defensive_bounds_amended_witness :
    0 ≤ calculate_conscientiousness_score directorProfile
      ∧ calculate_extraversion_score directorProfile ≤ 100
      ∧ 0 ≤ calculate_extraversion_score directorProfile :=
  ⟨(defensive_bounds_amended (fun _ => []) directorProfile).1.1,
   (defensive_bounds_amended (fun _ => []) directorProfile).2.1,
   ((defensive_bounds_amended (fun _ => []) directorProfile).2.2
      (by decide)).1⟩

/-! ## Claims about the batch orchestrator -/

/-- A roster member whose scrape yields no profile record. -/
def missingProfilePerson : Person :=
  { name := "Kaamil", linkedin := some "https://www.linkedin.com/in/kaamil",
    personality_score := none, details := none }

/-- C7 shows a code bug: when `scrape_profile` yields no profile record, the
loop body prints a message but has no `continue`; it still calls
`_profile_to_dict(None)`, which raises `AttributeError` — the batch aborts
with an exception instead of skipping the person and returning the full
roster. -/
theorem batch_aborts_on_missing_profile :
    run_analysis true (fun _ => none) (fun _ => []) [missingProfilePerson]
      = .error "AttributeError: NoneType object has no attribute name"
    ∧ ∀ result : List Person,
        run_analysis true (fun _ => none) (fun _ => [])
          [missingProfilePerson] ≠ .ok result := by
  have h0 : run_analysis true (fun _ => none) (fun _ => [])
      [missingProfilePerson]
      = .error "AttributeError: NoneType object has no attribute name" := rfl
  refine ⟨h0, fun result h => ?_⟩
  rw [h0] at h
  exact Except.noConfusion h

/-- C10: the analysis dict produced by `analyze_profile` never contains the
key `'personality_score'`, so `analysis_result.get('personality_score')` is
`None` and every successfully processed person ends with
`personality_score = None`; the computed scores are reachable only through
the `details` attribute. -/
theorem personality_score_never_set :
    (∀ (model : SentimentModel) (p : Profile),
      (analyze_profile model p).lookup "personality_score" = none)
    ∧ ∀ (scrape : Option String → Option LinkedInProfile)
        (model : SentimentModel) (p q : Person),
        processPerson scrape model p = .ok q →
          q.personality_score = none ∧ q.details.isSome = true := by
  have key : ∀ (model : SentimentModel) (p : Profile),
      (analyze_profile model p).lookup "personality_score" = none := by
    intro model p
    simp only [analyze_profile]
    by_cases h : aboutSentiment model p ≠ []
    · rw [if_pos h]; rfl
    · rw [if_neg h]; rfl
  refine ⟨key, ?_⟩
  intro scrape model p q h
  unfold processPerson at h
  cases hs : scrape p.linkedin with
  | none => rw [hs] at h; exact Except.noConfusion h
  | some lp =>
    rw [hs] at h
    have hq := Except.ok.inj h
    rw [← hq]
    exact ⟨key model (profile_to_dict lp), rfl⟩

/-- Empty profile record, as returned by `scrape_profile` on an exception. -/
def emptyLinkedInProfile : LinkedInProfile :=
  { name := "", followers := 0, title := "", verified := false,
    experiences := [], skills := [] }

/-- Roster member processed in the C10 witness. -/
def witnessPerson : Person :=
  { name := "A", linkedin := some "u", personality_score := none,
    details := none }

/-- The state of `witnessPerson` after the loop body. -/
def witnessPersonAfter : Person :=
  { witnessPerson with
    details := some (analyze_profile (fun _ => [])
      (profile_to_dict emptyLinkedInProfile)),
    personality_score := (analyze_profile (fun _ => [])
      (profile_to_dict emptyLinkedInProfile)).lookup "personality_score" }

/-- Witness for C10: a concrete processed person has `personality_score =
None` while `details` is populated. -/
theorem personality_score_never_set_witness :
    witnessPersonAfter.personality_score = none
      ∧ witnessPersonAfter.details.isSome = true :=
  personality_score_never_set.2 (fun _ => some emptyLinkedInProfile)
    (fun _ => []) witnessPerson witnessPersonAfter rfl

end GroupOptimizer
